import Mathlib

/-!
Verification of the URL reputation / ML scoring subsystem of the AVQON
repository (antivirus-core).  Python sources are embedded shallowly:
strings become Lean strings processed as lists of characters, Python
floats become exact rationals (and reals where the logistic sigmoid is
involved), dicts with a fixed key set become structures, fallible
network interactions become explicit outcome parameters, and functions
that mutate module state take and return that state explicitly.
-/

namespace AVQON

/-! ### Character/string helpers modelling Python str methods

Python str.lower, str.strip, substring membership and similar methods
are modelled on lists of characters (for ASCII text, which is the only
text the embedded functions are applied to). -/

/-- Model of Python ch.lower() for a single ASCII character. -/
def lowerChar (c : Char) : Char :=
  if c.isUpper then Char.ofNat (c.toNat + 32) else c

/-- Model of Python s.lower() (ASCII), as a list of characters. -/
def lowerStr (s : String) : List Char :=
  s.data.map lowerChar

/-- Model of the Python substring test needle in hay. -/
def listContains (hay needle : List Char) : Bool :=
  match hay with
  | [] => needle.isPrefixOf ([] : List Char)
  | _ :: rest => needle.isPrefixOf hay || listContains rest needle

/-- Model of Python s.strip(): drop whitespace at both ends. -/
def stripChars (l : List Char) : List Char :=
  ((l.dropWhile Char.isWhitespace).reverse.dropWhile Char.isWhitespace).reverse

/-- Truthiness of an optional string, as in Python: None and the empty
string are falsy. -/
def optStrTruthy : Option String → Bool
  | none => false
  | some s => s != ""

/-! ### app/ml_url_model.py -/

/-- FEATURE_NAMES from app/ml_url_model.py. -/
def FEATURE_NAMES : List String :=
  ["url_len", "domain_len", "digit_count", "subdomain_depth",
   "susp_kw_count", "external_flag", "heur_score"]

/-- UrlRiskMlModel._DEFAULT_WEIGHTS. -/
def DEFAULT_WEIGHTS : List (String × ℚ) :=
  [("url_len", 0.015), ("domain_len", 0.0), ("digit_count", 0.4),
   ("subdomain_depth", 0.3), ("susp_kw_count", 0.6),
   ("external_flag", 1.2), ("heur_score", 0.8)]

/-- UrlRiskMlModel._DEFAULT_BIAS. -/
def DEFAULT_BIAS : ℚ := -2.0

/-- UrlRiskMlModel._THRESHOLD_SUSPICIOUS. -/
def THRESHOLD_SUSPICIOUS : ℚ := 0.5

/-- UrlRiskMlModel._THRESHOLD_MALICIOUS. -/
def THRESHOLD_MALICIOUS : ℚ := 0.8

/-- The mutable attributes of a UrlRiskMlModel instance; the weights
dict is an association list keyed by feature name. -/
structure UrlRiskMlModel where
  weights : List (String × ℚ)
  bias : ℚ
  threshold_suspicious : ℚ
  threshold_malicious : ℚ
deriving DecidableEq

/-- Python self.weights.get(name, 0.0): first binding of the name in
the association list, else 0. -/
def weightOf (w : List (String × ℚ)) (name : String) : ℚ :=
  match w.find? (fun p => p.1 == name) with
  | some p => p.2
  | none => 0

/-- The state of an instance right after field initialisation in
UrlRiskMlModel.init, before _load_from_disk runs. -/
def defaultUrlRiskMlModel : UrlRiskMlModel :=
  { weights := DEFAULT_WEIGHTS
  , bias := DEFAULT_BIAS
  , threshold_suspicious := THRESHOLD_SUSPICIOUS
  , threshold_malicious := THRESHOLD_MALICIOUS }

/-- The fields of the model JSON artifact read by _load_from_disk,
already well typed; a missing key is none. -/
structure ModelJson where
  weights : Option (List (String × ℚ))
  bias : Option ℚ
  threshold_suspicious : Option ℚ
  threshold_malicious : Option ℚ

/-- The situations _load_from_disk can encounter: no file at the
resolved path, a file whose open/json.load raises (caught by the
bare except), or a successfully parsed JSON object. -/
inductive ModelFile
  | absent
  | malformed
  | parsed (data : ModelJson)

/-- UrlRiskMlModel.init followed by _load_from_disk: absent file
returns early, a malformed file raises inside the try and the except
swallows it, so in both cases the defaults survive; on a parsed file
each field falls back to its default when the key is missing. -/
def loadModel : ModelFile → UrlRiskMlModel
  | .absent => defaultUrlRiskMlModel
  | .malformed => defaultUrlRiskMlModel
  | .parsed d =>
      { weights := d.weights.getD DEFAULT_WEIGHTS
      , bias := d.bias.getD DEFAULT_BIAS
      , threshold_suspicious := d.threshold_suspicious.getD THRESHOLD_SUSPICIOUS
      , threshold_malicious := d.threshold_malicious.getD THRESHOLD_MALICIOUS }

/-- The external_result dict as consumed by _extract_features: only
the keys safe and threat_type are read.  A Python None or empty dict
argument is modelled by none at the Option (ExternalResult) level. -/
structure ExternalResult where
  safe : Option Bool
  threat_type : Option String
deriving DecidableEq

/-- The heuristic_result dict as consumed by _extract_features: only
riskScore is read.  A riskScore that is absent, null, falsy or not
convertible by float() yields 0.0 in the source (the try/except around
float); all of those are modelled by none. -/
structure HeuristicResult where
  riskScore : Option ℚ
deriving DecidableEq

/-- The feature dict returned by _extract_features (all Python floats). -/
structure Features where
  url_len : ℚ
  domain_len : ℚ
  digit_count : ℚ
  subdomain_depth : ℚ
  susp_kw_count : ℚ
  external_flag : ℚ
  heur_score : ℚ
deriving DecidableEq

/-- The suspicious_keywords list in _extract_features. -/
def suspicious_keywords : List String :=
  ["login", "signin", "verify", "secure", "account", "update",
   "billing", "support", "bank", "wallet", "crypto"]

/-- The susp_kw_count loop: number of keywords occurring in the
lowercased url. -/
def suspKwCount (url : String) : ℕ :=
  (suspicious_keywords.filter (fun kw => listContains (lowerStr url) kw.data)).length

/-- The external_flag computation in _extract_features: 1.0 when the
external result is truthy and reports safe is False or a truthy
threat_type. -/
def externalFlag : Option ExternalResult → ℚ
  | none => 0
  | some e => if e.safe == some false || optStrTruthy e.threat_type then 1 else 0

/-- The heur_score computation in _extract_features before the final
normalisation: float(heuristic_result.get riskScore or 0.0). -/
def heurScoreRaw : Option HeuristicResult → ℚ
  | none => 0
  | some h => h.riskScore.getD 0

/-- UrlRiskMlModel._extract_features.  The parsed path and query are
computed in the source but never used; every used feature is a pure
function of url, domain and the two optional dicts. -/
def extract_features (url domain : String) (er : Option ExternalResult)
    (hr : Option HeuristicResult) : Features :=
  { url_len := (min url.length 3000 : ℕ)
  , domain_len := (min domain.length 255 : ℕ)
  , digit_count := (domain.data.countP Char.isDigit : ℕ)
  , subdomain_depth := (domain.data.count '.' : ℕ)
  , susp_kw_count := (suspKwCount url : ℕ)
  , external_flag := externalFlag er
  , heur_score := heurScoreRaw hr / 100 }

/-- The linear combination z computed inside UrlRiskMlModel.evaluate,
including the url_len truthiness test guarding the normalisation. -/
def zValue (m : UrlRiskMlModel) (url domain : String)
    (er : Option ExternalResult) (hr : Option HeuristicResult) : ℚ :=
  let feats := extract_features url domain er hr
  let url_len_norm : ℚ := if feats.url_len = 0 then 0 else feats.url_len / 200
  m.bias
    + weightOf m.weights "url_len" * url_len_norm
    + weightOf m.weights "domain_len" * (feats.domain_len / 100)
    + weightOf m.weights "digit_count" * feats.digit_count
    + weightOf m.weights "subdomain_depth" * feats.subdomain_depth
    + weightOf m.weights "susp_kw_count" * feats.susp_kw_count
    + weightOf m.weights "external_flag" * feats.external_flag
    + weightOf m.weights "heur_score" * feats.heur_score

/-- The largest argument for which the IEEE double exponential used by
Python math.exp does not overflow; math.exp y raises OverflowError
exactly when y exceeds this bound. -/
def EXP_OVERFLOW_BOUND : ℝ := 709.782712893384

/-- UrlRiskMlModel._sigmoid: the logistic function, with the except
OverflowError branch returning 0.0 for negative x and 1.0 otherwise
(overflow of exp (-x) happens exactly when -x exceeds the bound). -/
noncomputable def sigmoid (x : ℝ) : ℝ :=
  if EXP_OVERFLOW_BOUND < -x then (if x < 0 then 0 else 1)
  else 1 / (1 + Real.exp (-x))

/-- The UrlMlResult dataclass. -/
structure UrlMlResult where
  ml_score : ℝ
  label : String

/-- UrlRiskMlModel.evaluate: score the linear combination through the
sigmoid and attach the thresholded label. -/
noncomputable def evaluate (m : UrlRiskMlModel) (url domain : String)
    (er : Option ExternalResult) (hr : Option HeuristicResult) : UrlMlResult :=
  let score : ℝ := sigmoid (zValue m url domain er hr)
  { ml_score := score
  , label :=
      if (m.threshold_malicious : ℝ) ≤ score then "malicious"
      else if (m.threshold_suspicious : ℝ) ≤ score then "suspicious"
      else "safe" }

/-- The sigmoid always lands in the closed unit interval, in every
branch of the overflow handling. -/
theorem sigmoid_mem_unit (x : ℝ) : 0 ≤ sigmoid x ∧ sigmoid x ≤ 1 := by
  unfold sigmoid
  split_ifs with h1 h2
  · exact ⟨le_refl 0, zero_le_one⟩
  · exact ⟨zero_le_one, le_refl 1⟩
  · have hpos : (0 : ℝ) < 1 + Real.exp (-x) := by positivity
    constructor
    · positivity
    · rw [div_le_one hpos]
      nlinarith [Real.exp_pos (-x)]

/-- C1: for every url, domain, external result, heuristic result and
every loaded model state, evaluate returns a label among safe,
suspicious, malicious, consistent with the thresholds: a score at or
above threshold_malicious is labelled malicious, a score in
[threshold_suspicious, threshold_malicious) is labelled suspicious,
and otherwise the label is safe. -/
theorem evaluate_label_consistent (m : UrlRiskMlModel) (url domain : String)
    (er : Option ExternalResult) (hr : Option HeuristicResult) :
    ((evaluate m url domain er hr).label = "safe" ∨
      (evaluate m url domain er hr).label = "suspicious" ∨
      (evaluate m url domain er hr).label = "malicious")
    ∧ ((m.threshold_malicious : ℝ) ≤ (evaluate m url domain er hr).ml_score →
        (evaluate m url domain er hr).label = "malicious")
    ∧ ((m.threshold_suspicious : ℝ) ≤ (evaluate m url domain er hr).ml_score ∧
        (evaluate m url domain er hr).ml_score < (m.threshold_malicious : ℝ) →
        (evaluate m url domain er hr).label = "suspicious")
    ∧ ((evaluate m url domain er hr).ml_score < (m.threshold_suspicious : ℝ) ∧
        (evaluate m url domain er hr).ml_score < (m.threshold_malicious : ℝ) →
        (evaluate m url domain er hr).label = "safe") := by
  unfold evaluate
  dsimp only
  split_ifs with hm hs
  · refine ⟨Or.inr (Or.inr rfl), fun _ => rfl, fun h => absurd hm (not_le.mpr h.2), ?_⟩
    exact fun h => absurd hm (not_le.mpr h.2)
  · refine ⟨Or.inr (Or.inl rfl), fun h => absurd h hm, fun _ => rfl, ?_⟩
    exact fun h => absurd hs (not_le.mpr h.1)
  · refine ⟨Or.inl rfl, fun h => absurd h hm, fun h => absurd h.1 hs, fun _ => rfl⟩

/-- Witness for C1 at a concrete model and input. -/
theorem evaluate_label_consistent_witness :
    ((evaluate defaultUrlRiskMlModel "https://a.com/" "a.com" none none).label = "safe" ∨
      (evaluate defaultUrlRiskMlModel "https://a.com/" "a.com" none none).label = "suspicious" ∨
      (evaluate defaultUrlRiskMlModel "https://a.com/" "a.com" none none).label = "malicious")
    ∧ ((defaultUrlRiskMlModel.threshold_malicious : ℝ) ≤
          (evaluate defaultUrlRiskMlModel "https://a.com/" "a.com" none none).ml_score →
        (evaluate defaultUrlRiskMlModel "https://a.com/" "a.com" none none).label = "malicious")
    ∧ ((defaultUrlRiskMlModel.threshold_suspicious : ℝ) ≤
          (evaluate defaultUrlRiskMlModel "https://a.com/" "a.com" none none).ml_score ∧
        (evaluate defaultUrlRiskMlModel "https://a.com/" "a.com" none none).ml_score <
          (defaultUrlRiskMlModel.threshold_malicious : ℝ) →
        (evaluate defaultUrlRiskMlModel "https://a.com/" "a.com" none none).label = "suspicious")
    ∧ ((evaluate defaultUrlRiskMlModel "https://a.com/" "a.com" none none).ml_score <
          (defaultUrlRiskMlModel.threshold_suspicious : ℝ) ∧
        (evaluate defaultUrlRiskMlModel "https://a.com/" "a.com" none none).ml_score <
          (defaultUrlRiskMlModel.threshold_malicious : ℝ) →
        (evaluate defaultUrlRiskMlModel "https://a.com/" "a.com" none none).label = "safe") :=
  evaluate_label_consistent defaultUrlRiskMlModel "https://a.com/" "a.com" none none

/-- C2: for every input and every model state (hence every set of
weights and bias), the score returned by evaluate lies in the closed
interval [0, 1], the overflow branch of the sigmoid included. -/
theorem evaluate_score_in_unit_interval (m : UrlRiskMlModel) (url domain : String)
    (er : Option ExternalResult) (hr : Option HeuristicResult) :
    (evaluate m url domain er hr).ml_score ∈ Set.Icc (0 : ℝ) 1 := by
  have h := sigmoid_mem_unit (zValue m url domain er hr)
  unfold evaluate
  exact Set.mem_Icc.mpr h

/-- C5: whether the model file is absent or present but malformed
(unreadable or invalid JSON), construction completes without raising
(loadModel is total on those cases) and the instance keeps the
built-in default weights, bias and thresholds. -/
theorem load_absent_or_malformed_uses_defaults :
    loadModel ModelFile.absent = defaultUrlRiskMlModel ∧
      loadModel ModelFile.malformed = defaultUrlRiskMlModel :=
  ⟨rfl, rfl⟩

/-- C6: loading an artifact whose weights map holds only digit_count
(with bias also set) succeeds, every other weight name resolves to
coefficient 0, and the linear combination inside evaluate collapses to
bias plus the digit weight times the digit count. -/
theorem load_digit_only_weights_zero_for_missing (w b : ℚ) :
    (loadModel (ModelFile.parsed ⟨some [("digit_count", w)], some b, none, none⟩)).weights
        = [("digit_count", w)]
    ∧ (loadModel (ModelFile.parsed ⟨some [("digit_count", w)], some b, none, none⟩)).bias = b
    ∧ (loadModel (ModelFile.parsed ⟨some [("digit_count", w)], some b, none, none⟩)).threshold_suspicious
        = THRESHOLD_SUSPICIOUS
    ∧ (loadModel (ModelFile.parsed ⟨some [("digit_count", w)], some b, none, none⟩)).threshold_malicious
        = THRESHOLD_MALICIOUS
    ∧ (∀ name : String, name ≠ "digit_count" →
        weightOf (loadModel (ModelFile.parsed ⟨some [("digit_count", w)], some b, none, none⟩)).weights name = 0)
    ∧ (∀ (url domain : String) (er : Option ExternalResult) (hr : Option HeuristicResult),
        zValue (loadModel (ModelFile.parsed ⟨some [("digit_count", w)], some b, none, none⟩)) url domain er hr
          = b + w * ((domain.data.countP Char.isDigit : ℕ) : ℚ)) := by
  refine ⟨rfl, rfl, rfl, rfl, ?_, ?_⟩
  · intro name h
    simp [loadModel, weightOf, List.find?, beq_eq_false_iff_ne.mpr (Ne.symm h)]
  · intro url domain er hr
    simp only [zValue, extract_features, loadModel, Option.getD_some]
    have hz : ∀ name : String, name ≠ "digit_count" →
        weightOf [("digit_count", w)] name = 0 := by
      intro name h
      simp [weightOf, List.find?, beq_eq_false_iff_ne.mpr (Ne.symm h)]
    have hd : weightOf [("digit_count", w)] "digit_count" = w := rfl
    rw [hz "url_len" (by decide), hz "domain_len" (by decide), hd,
      hz "subdomain_depth" (by decide), hz "susp_kw_count" (by decide),
      hz "external_flag" (by decide), hz "heur_score" (by decide)]
    ring

/-- Witness for C6 at concrete inputs: with weights containing only
digit_count 0.9 and bias -1, the missing weight url_len contributes 0. -/
theorem load_digit_only_weights_zero_for_missing_witness :
    weightOf (loadModel (ModelFile.parsed
        ⟨some [("digit_count", (0.9 : ℚ))], some (-1 : ℚ), none, none⟩)).weights "url_len" = 0 :=
  (load_digit_only_weights_zero_for_missing 0.9 (-1)).2.2.2.2.1 "url_len" (by decide)

/-- The sigmoid is strictly increasing on arguments that do not take
the overflow branch. -/
theorem sigmoid_strict_mono_of_no_overflow {x y : ℝ}
    (hx : -EXP_OVERFLOW_BOUND ≤ x) (hxy : x < y) : sigmoid x < sigmoid y := by
  have hnx : ¬ EXP_OVERFLOW_BOUND < -x := by linarith
  have hny : ¬ EXP_OVERFLOW_BOUND < -y := by linarith
  unfold sigmoid
  rw [if_neg hnx, if_neg hny]
  have hexp := Real.exp_lt_exp.mpr (neg_lt_neg hxy)
  exact one_div_lt_one_div_of_lt (by positivity) (by linarith)

/-- C9: with the default weights, the digit-substituted URL scores
strictly higher than the plain one; the extracted feature vectors
differ only in digit_count (2 against 0). -/
theorem digit_substituted_url_scores_strictly_higher :
    extract_features "https://ex4mpl3.com/" "ex4mpl3.com" none none
      = { extract_features "https://example.com/" "example.com" none none with
          digit_count := 2 }
    ∧ (evaluate defaultUrlRiskMlModel "https://example.com/" "example.com" none none).ml_score
      < (evaluate defaultUrlRiskMlModel "https://ex4mpl3.com/" "ex4mpl3.com" none none).ml_score := by
  have hFA : extract_features "https://example.com/" "example.com" none none
      = { url_len := 20, domain_len := 11, digit_count := 0, subdomain_depth := 1,
          susp_kw_count := 0, external_flag := 0, heur_score := 0 } := by
    simp only [extract_features, externalFlag, heurScoreRaw, Features.mk.injEq]
    refine ⟨?_, ?_, ?_, ?_, ?_, by norm_num, by norm_num⟩
    · rw [show min ("https://example.com/".length) 3000 = 20 from by decide]; norm_num
    · rw [show min ("example.com".length) 255 = 11 from by decide]; norm_num
    · rw [show ("example.com".data.countP Char.isDigit) = 0 from by decide]; norm_num
    · rw [show ("example.com".data.count '.') = 1 from by decide]; norm_num
    · rw [show suspKwCount "https://example.com/" = 0 from by decide]; norm_num
  have hFB : extract_features "https://ex4mpl3.com/" "ex4mpl3.com" none none
      = { url_len := 20, domain_len := 11, digit_count := 2, subdomain_depth := 1,
          susp_kw_count := 0, external_flag := 0, heur_score := 0 } := by
    simp only [extract_features, externalFlag, heurScoreRaw, Features.mk.injEq]
    refine ⟨?_, ?_, ?_, ?_, ?_, by norm_num, by norm_num⟩
    · rw [show min ("https://ex4mpl3.com/".length) 3000 = 20 from by decide]; norm_num
    · rw [show min ("ex4mpl3.com".length) 255 = 11 from by decide]; norm_num
    · rw [show ("ex4mpl3.com".data.countP Char.isDigit) = 2 from by decide]; norm_num
    · rw [show ("ex4mpl3.com".data.count '.') = 1 from by decide]; norm_num
    · rw [show suspKwCount "https://ex4mpl3.com/" = 0 from by decide]; norm_num
  have wUrl : weightOf DEFAULT_WEIGHTS "url_len" = 0.015 := rfl
  have wDom : weightOf DEFAULT_WEIGHTS "domain_len" = 0.0 := rfl
  have wDig : weightOf DEFAULT_WEIGHTS "digit_count" = 0.4 := rfl
  have wSub : weightOf DEFAULT_WEIGHTS "subdomain_depth" = 0.3 := rfl
  have wKw : weightOf DEFAULT_WEIGHTS "susp_kw_count" = 0.6 := rfl
  have wExt : weightOf DEFAULT_WEIGHTS "external_flag" = 1.2 := rfl
  have wHeur : weightOf DEFAULT_WEIGHTS "heur_score" = 0.8 := rfl
  have hzA : zValue defaultUrlRiskMlModel "https://example.com/" "example.com" none none
      = -3397/2000 := by
    simp only [zValue, defaultUrlRiskMlModel, hFA, wUrl, wDom, wDig, wSub, wKw, wExt, wHeur]
    rw [if_neg (show ¬ (20 : ℚ) = 0 from by norm_num)]
    norm_num [DEFAULT_BIAS]
  have hzB : zValue defaultUrlRiskMlModel "https://ex4mpl3.com/" "ex4mpl3.com" none none
      = -1797/2000 := by
    simp only [zValue, defaultUrlRiskMlModel, hFB, wUrl, wDom, wDig, wSub, wKw, wExt, wHeur]
    rw [if_neg (show ¬ (20 : ℚ) = 0 from by norm_num)]
    norm_num [DEFAULT_BIAS]
  refine ⟨by rw [hFA, hFB], ?_⟩
  simp only [evaluate]
  rw [hzA, hzB]
  apply sigmoid_strict_mono_of_no_overflow
  · rw [show EXP_OVERFLOW_BOUND = (709.782712893384 : ℝ) from rfl]
    norm_num
  · norm_num

/-! ### app/external_apis/whoisxml.py and app/external_apis/urlscan.py

Network interaction is embedded by passing the outcome the HTTP layer
would deliver as an explicit argument; the except clauses of the
sources become branches on that outcome, so both client methods are
total Lean functions (they never raise). -/

/-- Outcome of an awaited aiohttp GET as distinguished by the except
clauses of the sources: an asyncio.TimeoutError, any other exception
(connection errors, bad JSON bodies, ...), or an HTTP response with a
status code and a decoded body. -/
inductive HttpOutcome (β : Type)
  | timeout
  | netError
  | response (status : ℕ) (body : β)

/-- Python s.strip() returning a string. -/
def stripStr (s : String) : String :=
  String.mk (stripChars s.data)

/-- Python s.lower() returning a string. -/
def lowerString (s : String) : String :=
  String.mk (lowerStr s)

/-- WhoisXMLClient state: the API key (stripped in init) and whether
an aiohttp session was opened by aenter. -/
structure WhoisXMLClient where
  api_key : String
  hasSession : Bool

/-- WhoisXMLClient.init: the configured key, or empty, stripped. -/
def mkWhoisXMLClient (rawKey : String) (hasSession : Bool) : WhoisXMLClient :=
  { api_key := stripStr rawKey, hasSession := hasSession }

/-- WhoisXMLClient.enabled: a truthy key that does not contain the
placeholder marker your_ in its lowercasing. -/
def WhoisXMLClient.enabled (c : WhoisXMLClient) : Bool :=
  c.api_key != "" && !(listContains (lowerStr c.api_key) "your_".data)

/-- The module-level _whois_cache: domain to (age, timestamp). -/
abbrev WhoisCache := List (String × (Option ℕ × Int))

/-- _WHOIS_CACHE_TTL_SEC = 24 * 3600. -/
def WHOIS_CACHE_TTL_SEC : Int := 24 * 3600

/-- Python dict assignment cache[d] = v. -/
def whoisCacheInsert (cache : WhoisCache) (d : String) (v : Option ℕ × Int) : WhoisCache :=
  (d, v) :: List.filter (fun p => p.1 != d) cache

/-- The cache consultation in get_domain_age_days: a fresh entry
yields its stored age, anything else is a miss. -/
def whoisCacheLookup (cache : WhoisCache) (d : String) (now : Int) : Option (Option ℕ) :=
  match List.find? (fun p => p.1 == d) cache with
  | some p => if now - p.2.2 < WHOIS_CACHE_TTL_SEC then some p.2.1 else none
  | none => none

/-- _domain_age_days: days since the creation date, clamped at 0.
Dates are abstracted to whole days on an integer timeline. -/
def domain_age_days (nowDays createdDays : Int) : ℕ :=
  (max 0 (nowDays - createdDays)).toNat

/-- WhoisXMLClient.get_domain_age_days.  The body of a 200 response is
abstracted to the value _parse_creation_date extracts from the decoded
JSON (none when no creation date is recognised); a body whose
resp.json() raises is part of the netError outcome.  Returns the age
result together with the updated module cache. -/
def get_domain_age_days (c : WhoisXMLClient) (cache : WhoisCache) (now nowDays : Int)
    (domain : String) (net : HttpOutcome (Option Int)) : Option ℕ × WhoisCache :=
  if domain == "" || !c.enabled then (none, cache)
  else
    let d := stripStr (lowerString domain)
    match whoisCacheLookup cache d now with
    | some age => (age, cache)
    | none =>
        if !c.hasSession then (none, cache)
        else
          match net with
          | .timeout => (none, cache)
          | .netError => (none, whoisCacheInsert cache d (none, now))
          | .response s body =>
              if s ≠ 200 then (none, whoisCacheInsert cache d (none, now))
              else
                match body with
                | none => (none, whoisCacheInsert cache d (none, now))
                | some created =>
                    let age := domain_age_days nowDays created
                    (some age, whoisCacheInsert cache d (some age, now))

/-- URLScanClient state: the API key (stripped in init) and whether
an aiohttp session was opened by aenter. -/
structure URLScanClient where
  api_key : String
  hasSession : Bool

/-- URLScanClient.init. -/
def mkURLScanClient (rawKey : String) (hasSession : Bool) : URLScanClient :=
  { api_key := stripStr rawKey, hasSession := hasSession }

/-- URLScanClient.enabled: same placeholder test as the WHOIS client. -/
def URLScanClient.enabled (c : URLScanClient) : Bool :=
  c.api_key != "" && !(listContains (lowerStr c.api_key) "your_".data)

/-- urlparse(url).netloc for a url that passed the scheme check: the
text between the scheme separator and the next slash, question mark
or hash. -/
def netlocOf (url : String) : List Char :=
  let rest :=
    if "https://".data.isPrefixOf url.data then url.data.drop 8
    else url.data.drop 7
  rest.takeWhile (fun ch => ch != '/' && ch != '?' && ch != '#')

/-- The flat dicts returned by URLScanClient.check_url and
_parse_search_result; a key the dict does not carry is none. -/
structure ScanVerdict where
  safe : Option Bool
  threat_type : Option String
  details : String
  external_scan : String
  confidence : ℕ
deriving DecidableEq

/-- The 429 branch dict of check_url. -/
def urlscanRateLimitedDict : ScanVerdict :=
  { safe := none, threat_type := none, details := "Rate limited",
    external_scan := "urlscan", confidence := 0 }

/-- The TimeoutError branch dict of check_url. -/
def urlscanTimeoutDict : ScanVerdict :=
  { safe := none, threat_type := none, details := "Timeout",
    external_scan := "urlscan", confidence := 0 }

/-- The dict _parse_search_result returns on a malicious or scored hit. -/
def urlscanUnsafeDict : ScanVerdict :=
  { safe := some false, threat_type := some "malicious",
    details := "URLScan.io: malicious or suspicious scan result",
    external_scan := "urlscan", confidence := 75 }

/-- The dict _parse_search_result returns when no hit is malicious. -/
def urlscanSafeDict : ScanVerdict :=
  { safe := some true, threat_type := none,
    details := "URLScan.io: no malicious scans found",
    external_scan := "urlscan", confidence := 65 }

/-- One item of the search results list, abstracted to the values
_parse_search_result extracts: the page url and domain, and from the
verdicts/overall navigation the malicious flag (overall.malicious is
True) and the numeric score (overall.score or 0). -/
structure ScanItem where
  page_url : String
  page_domain : String
  verdict_malicious : Bool
  verdict_score : ℚ

/-- URLScanClient._parse_search_result: the first result matching our
domain or url that is malicious or positively scored wins; otherwise
the search is clean. -/
def parse_search_result (results : List ScanItem) (original_url : String)
    (domain : List Char) : ScanVerdict :=
  match results with
  | [] => urlscanSafeDict
  | item :: rest =>
      let item_url := stripStr item.page_url
      let item_domain := lowerStr item.page_domain
      if item_domain != domain && item_url != original_url then
        parse_search_result rest original_url domain
      else if item.verdict_malicious || decide (0 < item.verdict_score) then
        urlscanUnsafeDict
      else
        parse_search_result rest original_url domain

/-- URLScanClient.check_url.  The body of a response is the decoded
results list; a resp.json() failure is part of the netError outcome. -/
def check_url (c : URLScanClient) (url : String)
    (net : HttpOutcome (List ScanItem)) : Option ScanVerdict :=
  if url == "" ||
      !("http://".data.isPrefixOf url.data || "https://".data.isPrefixOf url.data) then
    none
  else
    let domain := (netlocOf url).map lowerChar
    if domain == [] then none
    else if !c.hasSession then none
    else
      match net with
      | .timeout => some urlscanTimeoutDict
      | .netError => none
      | .response s body =>
          if s == 429 then some urlscanRateLimitedDict
          else if s != 200 then none
          else some (parse_search_result body url domain)

/-- C3 counterexample: URLScanClient.check_url violates the claim at
three concrete inputs.  On a timeout it returns the Timeout sentinel
dict, not None; on HTTP 429 (a rate-limit network failure) it returns
the Rate limited sentinel dict, not None; and with a placeholder key
(enabled False, credentials missing) it does not short-circuit to
None but performs the request and returns the parsed verdict. -/
theorem check_url_timeout_returns_sentinel_dict :
    check_url (mkURLScanClient "k" true) "https://example.com/" HttpOutcome.timeout
        ≠ (none : Option ScanVerdict)
    ∧ check_url (mkURLScanClient "k" true) "https://example.com/" HttpOutcome.timeout
        = some urlscanTimeoutDict
    ∧ check_url (mkURLScanClient "k" true) "https://example.com/"
        (HttpOutcome.response 429 []) ≠ (none : Option ScanVerdict)
    ∧ check_url (mkURLScanClient "k" true) "https://example.com/"
        (HttpOutcome.response 429 []) = some urlscanRateLimitedDict
    ∧ (mkURLScanClient "your_api_key_here" true).enabled = false
    ∧ check_url (mkURLScanClient "your_api_key_here" true) "https://example.com/"
        (HttpOutcome.response 200 []) = some urlscanSafeDict := by
  refine ⟨by decide, rfl, by decide, rfl, by decide, rfl⟩

/-- C3 as amended: WhoisXMLClient.get_domain_age_days returns None on
missing credentials and, whenever the request is actually made (no
fresh cache entry), on timeout, on any other network exception and on
a non-200 status; URLScanClient.check_url never raises, returns None
on network exceptions and on non-429 non-200 statuses, but answers a
sentinel dict with an unknown safe field on timeout and on HTTP 429,
and does not short-circuit on missing credentials. -/
theorem gatherer_failures_yield_unknown :
    (∀ (c : WhoisXMLClient) (cache : WhoisCache) (now nowDays : Int) (domain : String)
        (net : HttpOutcome (Option Int)),
      c.enabled = false →
        (get_domain_age_days c cache now nowDays domain net).1 = none)
    ∧ (∀ (c : WhoisXMLClient) (cache : WhoisCache) (now nowDays : Int) (domain : String),
        whoisCacheLookup cache (stripStr (lowerString domain)) now = none →
          (get_domain_age_days c cache now nowDays domain HttpOutcome.timeout).1 = none
          ∧ (get_domain_age_days c cache now nowDays domain HttpOutcome.netError).1 = none
          ∧ ∀ (s : ℕ) (b : Option Int), s ≠ 200 →
              (get_domain_age_days c cache now nowDays domain (HttpOutcome.response s b)).1 = none)
    ∧ (∀ (c : URLScanClient) (url : String),
        check_url c url HttpOutcome.netError = none
        ∧ (∀ (s : ℕ) (b : List ScanItem), s ≠ 429 → s ≠ 200 →
            check_url c url (HttpOutcome.response s b) = none)
        ∧ ((url == "" ||
              !("http://".data.isPrefixOf url.data ||
                "https://".data.isPrefixOf url.data)) = false →
            ((netlocOf url).map lowerChar == ([] : List Char)) = false →
            c.hasSession = true →
              check_url c url HttpOutcome.timeout = some urlscanTimeoutDict
              ∧ ∀ b : List ScanItem,
                  check_url c url (HttpOutcome.response 429 b)
                    = some urlscanRateLimitedDict))
    ∧ (∀ (k1 k2 : String) (hs : Bool) (url : String) (net : HttpOutcome (List ScanItem)),
        check_url { api_key := k1, hasSession := hs } url net
          = check_url { api_key := k2, hasSession := hs } url net) := by
  refine ⟨?_, ?_, ?_, ?_⟩
  · intro c cache now nowDays domain net h
    simp [get_domain_age_days, h]
  · intro c cache now nowDays domain hlook
    by_cases hg : (domain == "" || !c.enabled) = true
    · simp [get_domain_age_days, hg]
    · by_cases hs : c.hasSession
      · refine ⟨?_, ?_, ?_⟩
        · simp [get_domain_age_days, hg, hlook, hs]
        · simp [get_domain_age_days, hg, hlook, hs]
        · intro s b hsne
          simp [get_domain_age_days, hg, hlook, hs, hsne]
      · refine ⟨?_, ?_, ?_⟩
        · simp [get_domain_age_days, hg, hlook, hs]
        · simp [get_domain_age_days, hg, hlook, hs]
        · intro s b hsne
          simp [get_domain_age_days, hg, hlook, hs]
  · intro c url
    refine ⟨?_, ?_, ?_⟩
    · show check_url c url HttpOutcome.netError = none
      unfold check_url
      split
      · rfl
      · dsimp only
        split
        · rfl
        · split
          · rfl
          · rfl
    · intro s b h429 h200
      unfold check_url
      split
      · rfl
      · dsimp only
        split
        · rfl
        · split
          · rfl
          · simp [beq_eq_false_iff_ne.mpr h429, bne_iff_ne.mpr h200]
    · intro hg hd hs
      constructor
      · unfold check_url
        rw [if_neg (by simp only [hg]; exact Bool.false_ne_true)]
        dsimp only
        rw [if_neg (by simp only [hd]; exact Bool.false_ne_true),
          if_neg (by simp [hs])]
      · intro b
        unfold check_url
        rw [if_neg (by simp only [hg]; exact Bool.false_ne_true)]
        dsimp only
        rw [if_neg (by simp only [hd]; exact Bool.false_ne_true),
          if_neg (by simp [hs])]
        rfl
  · intro k1 k2 hs url net
    unfold check_url
    rfl

/-- Witness for the amended C3 at concrete inputs: a disabled WHOIS
client on timeout and an enabled one on a network error with an empty
cache answer None; the scan client answers None on a server error and
the respective sentinel dicts on timeout and HTTP 429. -/
theorem gatherer_failures_yield_unknown_witness :
    (get_domain_age_days (mkWhoisXMLClient "" true) [] 0 0 "example.com"
        HttpOutcome.timeout).1 = none
    ∧ (get_domain_age_days (mkWhoisXMLClient "key123" true) [] 0 0 "example.com"
        HttpOutcome.netError).1 = none
    ∧ check_url (mkURLScanClient "key123" true) "https://example.com/"
        (HttpOutcome.response 500 []) = none
    ∧ check_url (mkURLScanClient "key123" true) "https://example.com/"
        HttpOutcome.timeout = some urlscanTimeoutDict
    ∧ check_url (mkURLScanClient "key123" true) "https://example.com/"
        (HttpOutcome.response 429 []) = some urlscanRateLimitedDict
    ∧ check_url { api_key := "a", hasSession := true } "https://example.com/"
        HttpOutcome.netError
      = check_url { api_key := "b", hasSession := true } "https://example.com/"
        HttpOutcome.netError := by
  refine ⟨?_, ?_, ?_, ?_, ?_, ?_⟩
  · exact gatherer_failures_yield_unknown.1 _ _ _ _ _ _ (by decide)
  · exact (gatherer_failures_yield_unknown.2.1 (mkWhoisXMLClient "key123" true)
      [] 0 0 "example.com" (by rfl)).2.1
  · exact (gatherer_failures_yield_unknown.2.2.1 (mkURLScanClient "key123" true)
      "https://example.com/").2.1 500 [] (by decide) (by decide)
  · exact ((gatherer_failures_yield_unknown.2.2.1 (mkURLScanClient "key123" true)
      "https://example.com/").2.2 (by decide) (by decide) (by rfl)).1
  · exact ((gatherer_failures_yield_unknown.2.2.1 (mkURLScanClient "key123" true)
      "https://example.com/").2.2 (by decide) (by decide) (by rfl)).2 []
  · exact gatherer_failures_yield_unknown.2.2.2 "a" "b" true "https://example.com/"
      HttpOutcome.netError

/-- C8: a key that strips to empty or contains the your_ placeholder
makes both gatherer clients report enabled false, and makes
get_domain_age_days answer None for every domain without raising. -/
theorem no_credentials_disables_gatherers (rawKey : String) (hs hs2 : Bool)
    (h : stripStr rawKey = "" ∨
      listContains (lowerStr (stripStr rawKey)) "your_".data = true) :
    (mkWhoisXMLClient rawKey hs).enabled = false
    ∧ (mkURLScanClient rawKey hs2).enabled = false
    ∧ ∀ (cache : WhoisCache) (now nowDays : Int) (domain : String)
        (net : HttpOutcome (Option Int)),
        (get_domain_age_days (mkWhoisXMLClient rawKey hs) cache now nowDays domain net).1
          = none := by
  have he : (mkWhoisXMLClient rawKey hs).enabled = false := by
    rcases h with h | h
    · simp [WhoisXMLClient.enabled, mkWhoisXMLClient, h]
    · simp [WhoisXMLClient.enabled, mkWhoisXMLClient, h]
  have hu : (mkURLScanClient rawKey hs2).enabled = false := by
    rcases h with h | h
    · simp [URLScanClient.enabled, mkURLScanClient, h]
    · simp [URLScanClient.enabled, mkURLScanClient, h]
  refine ⟨he, hu, ?_⟩
  intro cache now nowDays domain net
  simp [get_domain_age_days, he]

/-- Witness for C8 with the placeholder key your_api_key_here. -/
theorem no_credentials_disables_gatherers_witness :
    (mkWhoisXMLClient "your_api_key_here" true).enabled = false
    ∧ (mkURLScanClient "your_api_key_here" true).enabled = false
    ∧ (get_domain_age_days (mkWhoisXMLClient "your_api_key_here" true) [] 0 0
        "example.com" HttpOutcome.timeout).1 = none :=
  have h := no_credentials_disables_gatherers "your_api_key_here" true true
    (Or.inr (by decide))
  ⟨h.1, h.2.1, h.2.2 [] 0 0 "example.com" HttpOutcome.timeout⟩

/-! ### app/ssl_info.py -/

/-- A TLS info dict: ordered keys with nullable string values. -/
abbrev SslDict := List (String × Option String)

/-- The fixed key set of every dict produced by ssl_info. -/
def sslKeys : List String := ["ssl_issuer", "ssl_valid_from", "ssl_valid_to"]

/-- Keys of a dict, in order. -/
def dictKeys (d : SslDict) : List String := d.map Prod.fst

/-- The all-None dict returned for blank hostnames and failed fetches. -/
def sslNoneDict : SslDict :=
  [("ssl_issuer", none), ("ssl_valid_from", none), ("ssl_valid_to", none)]

/-- The dict built by a successful _get_peer_cert_sync: the issuer
string (empty becomes None via the or None) and the two parsed dates. -/
def certDict (issuer_str : String) (vfrom vto : Option String) : SslDict :=
  [("ssl_issuer", if issuer_str == "" then none else some issuer_str),
   ("ssl_valid_from", vfrom), ("ssl_valid_to", vto)]

/-- Outcome of _get_peer_cert_sync as the caller observes it: every
caught exception and a missing peer certificate give fail (Python
None); success carries the extracted issuer string and the two
parse_ssl_date results. -/
inductive CertFetch
  | fail
  | ok (issuer_str : String) (vfrom vto : Option String)

/-- The module-level _ssl_cache: hostname to (dict, timestamp). -/
abbrev SslCache := List (String × (SslDict × Int))

/-- _SSL_CACHE_TTL = 3600 seconds. -/
def SSL_CACHE_TTL : Int := 3600

/-- The cache consultation in get_ssl_info: only on use_cache and only
a fresh entry hits. -/
def sslCacheLookup (use_cache : Bool) (cache : SslCache) (h : String)
    (now : Int) : Option SslDict :=
  if use_cache then
    match List.find? (fun p => p.1 == h) cache with
    | some p => if now - p.2.2 < SSL_CACHE_TTL then some p.2.1 else none
    | none => none
  else none

/-- Python dict assignment _ssl_cache[h] = (d, now). -/
def sslCacheInsert (cache : SslCache) (h : String) (v : SslDict × Int) : SslCache :=
  (h, v) :: List.filter (fun p => p.1 != h) cache

/-- The observable effects of one get_ssl_info call: the returned
dict, the module cache afterwards, and whether the certificate fetch
(the only network access in the function) ran. -/
structure SslInfoResult where
  result : SslDict
  cache : SslCache
  fetched : Bool

/-- get_ssl_info: blank hostname short-circuits to the all-None dict
before the cache lookup; otherwise the hostname is stripped and
lowercased, a fresh cached dict is returned as is, and else the fetch
outcome is stored and returned (failures as the all-None dict). -/
def get_ssl_info (hostname : String) (use_cache : Bool) (cache : SslCache)
    (now : Int) (fetch : CertFetch) : SslInfoResult :=
  if hostname == "" || stripChars hostname.data == ([] : List Char) then
    { result := sslNoneDict, cache := cache, fetched := false }
  else
    let h := lowerString (stripStr hostname)
    match sslCacheLookup use_cache cache h now with
    | some data => { result := data, cache := cache, fetched := false }
    | none =>
        match fetch with
        | .ok issuer_str vfrom vto =>
            { result := certDict issuer_str vfrom vto
            , cache := sslCacheInsert cache h (certDict issuer_str vfrom vto, now)
            , fetched := true }
        | .fail =>
            { result := sslNoneDict
            , cache := sslCacheInsert cache h (sslNoneDict, now)
            , fetched := true }

/-- Every dict stored in the cache carries exactly the three TLS keys. -/
def sslCacheKeysOk (cache : SslCache) : Prop :=
  ∀ e ∈ cache, dictKeys e.2.1 = sslKeys

/-- A cache hit produces a dict that was stored in the cache. -/
theorem sslCacheLookup_mem {use_cache : Bool} {cache : SslCache} {h : String}
    {now : Int} {data : SslDict} (hl : sslCacheLookup use_cache cache h now = some data) :
    ∃ e ∈ cache, e.2.1 = data := by
  unfold sslCacheLookup at hl
  split at hl
  · split at hl
    next p hp =>
      split at hl
      · exact ⟨p, List.mem_of_find?_eq_some hp, by injection hl⟩
      · exact absurd hl (by simp)
    next => exact absurd hl (by simp)
  · exact absurd hl (by simp)

/-- C10: a blank (empty or whitespace-only) hostname makes
get_ssl_info answer the all-None dict with no cache consultation and
no fetch; and when every cached dict has exactly the three TLS keys,
the result of any call has exactly those keys, and the cache keeps the
property. -/
theorem get_ssl_info_blank_and_key_set :
    (∀ (hostname : String) (use_cache : Bool) (cache : SslCache) (now : Int)
        (fetch : CertFetch),
      (hostname == "" || stripChars hostname.data == ([] : List Char)) = true →
        get_ssl_info hostname use_cache cache now fetch
          = { result := sslNoneDict, cache := cache, fetched := false })
    ∧ (∀ (hostname : String) (use_cache : Bool) (cache : SslCache) (now : Int)
        (fetch : CertFetch), sslCacheKeysOk cache →
        dictKeys (get_ssl_info hostname use_cache cache now fetch).result = sslKeys
        ∧ sslCacheKeysOk (get_ssl_info hostname use_cache cache now fetch).cache) := by
  constructor
  · intro hostname use_cache cache now fetch hblank
    unfold get_ssl_info
    rw [if_pos hblank]
  · intro hostname use_cache cache now fetch hinv
    unfold get_ssl_info
    split
    · exact ⟨rfl, hinv⟩
    · dsimp only
      split
      next data hl =>
        obtain ⟨e, he, hed⟩ := sslCacheLookup_mem hl
        exact ⟨hed ▸ hinv e he, hinv⟩
      next =>
        have hins : ∀ (h : String) (d : SslDict) (now2 : Int), dictKeys d = sslKeys →
            sslCacheKeysOk (sslCacheInsert cache h (d, now2)) := by
          intro h d now2 hd e he
          rcases List.mem_cons.mp he with rfl | he2
          · exact hd
          · exact hinv e (List.mem_of_mem_filter he2)
        cases fetch with
        | fail => exact ⟨rfl, hins _ _ _ rfl⟩
        | ok issuer_str vfrom vto =>
            refine ⟨rfl, hins _ _ _ ?_⟩
            unfold certDict dictKeys sslKeys
            split <;> rfl

/-- Witness for C10: a whitespace hostname with a one-entry cache, and
a real hostname against the empty cache. -/
theorem get_ssl_info_blank_and_key_set_witness :
    get_ssl_info "   " true [("x", (sslNoneDict, 0))] 5 CertFetch.fail
      = { result := sslNoneDict, cache := [("x", (sslNoneDict, 0))], fetched := false }
    ∧ dictKeys (get_ssl_info "example.com" true [] 0 CertFetch.fail).result = sslKeys := by
  constructor
  · exact get_ssl_info_blank_and_key_set.1 "   " true [("x", (sslNoneDict, 0))] 5
      CertFetch.fail (by decide)
  · exact (get_ssl_info_blank_and_key_set.2 "example.com" true [] 0 CertFetch.fail
      (by simp [sslCacheKeysOk])).1

/-! ### app/admin_ui.py : _refresh_cache_entries -/

/-- One cached row as consumed by the refresh loop: the entry url and
domain and the same fields of its payload dict; none is an absent key. -/
structure CacheEntry where
  url : Option String
  payload_url : Option String
  domain : Option String
  payload_domain : Option String

/-- Python truthiness filter on an optional string field. -/
def truthyStr : Option String → Option String
  | some s => if s == "" then none else some s
  | none => none

/-- The url resolution at the top of each loop iteration: entry url,
else payload url, else https:// plus the entry or payload domain; an
entry resolving to nothing only counts an error. -/
def resolveEntryUrl (e : CacheEntry) : Option String :=
  match truthyStr e.url with
  | some u => some u
  | none =>
      match truthyStr e.payload_url with
      | some u => some u
      | none =>
          match truthyStr e.domain with
          | some d => some ("https://" ++ d)
          | none =>
              match truthyStr e.payload_domain with
              | some d => some ("https://" ++ d)
              | none => none

/-- The store-name normalisation of _refresh_cache_entries, including
the fallback of unknown targets to all. -/
def refreshTargets (target : String) : List String :=
  let t := lowerString target
  let ts0 := (if t == "whitelist" || t == "all" then ["whitelist"] else [])
      ++ (if t == "blacklist" || t == "all" then ["blacklist"] else [])
  let ts1 := if ts0.isEmpty then ["all"] else ts0
  if ts1.contains "all" then ["whitelist", "blacklist"] else ts1

/-- _refresh_cache_entries, with get_cached_entries (db_manager, out
of tree) passed in as the function returning the rows of one store.
The returned list is the sequence of URLs handed to
analysis_service.analyze_url, one per analyzed entry. -/
def _refresh_cache_entries (target : String) (limit : Int)
    (get_cached_entries : String → Int → List CacheEntry) : List String :=
  let lim := max 1 (min limit 50)
  let targets := refreshTargets target
  let entries := (targets.map (fun s => get_cached_entries s lim)).flatten
  let entries2 := entries.take lim.toNat
  entries2.filterMap resolveEntryUrl

/-- C7: whatever the requested target string and limit (negative,
zero or above 50 included) and whatever the stores return, the bulk
refresh analyzes at most 50 entries in total. -/
theorem refresh_cache_entries_caps_at_fifty (target : String) (limit : Int)
    (get_cached_entries : String → Int → List CacheEntry) :
    (_refresh_cache_entries target limit get_cached_entries).length ≤ 50 := by
  unfold _refresh_cache_entries
  have h1 := List.length_filterMap_le resolveEntryUrl
    ((((refreshTargets target).map
      (fun s => get_cached_entries s (max 1 (min limit 50)))).flatten).take
        (max 1 (min limit 50)).toNat)
  have h2 := List.length_take_le (max 1 (min limit 50)).toNat
    (((refreshTargets target).map
      (fun s => get_cached_entries s (max 1 (min limit 50)))).flatten)
  have h3 : (max 1 (min limit 50)).toNat ≤ (50 : Int).toNat := by
    apply Int.toNat_le_toNat
    exact max_le (by norm_num) (min_le_right _ _)
  exact le_trans h1 (le_trans h2 h3)

/-! ### admin_ui.py recheck_url_action over the reputation stores

The db_manager store operations live in app/database.py, which is not
part of the source tree (only their callers are); they are modelled
from the spec below. -/

/-- The three persistent URL stores the recheck path touches. -/
structure ReputationDb where
  whitelist : List String
  blacklist : List String
  malicious_urls : List String

/-- Modelled from the spec: db_manager.mark_url_as_safe (app/database.py
is missing from the tree).  Per the spec and the admin UI text, marking
a URL safe deletes it from every list, so the stale entry is gone from
whichever store held it before the fresh verdict is admitted. -/
def mark_url_as_safe (db : ReputationDb) (url : String) : ReputationDb :=
  { whitelist := db.whitelist.filter (fun u => u != url)
  , blacklist := db.blacklist.filter (fun u => u != url)
  , malicious_urls := db.malicious_urls.filter (fun u => u != url) }

/-- Modelled from the spec: db_manager.save_whitelist_entry — admit a
safe verdict for the URL into the whitelist store (write wins over any
previous row for the same URL). -/
def save_whitelist_entry (db : ReputationDb) (url : String) : ReputationDb :=
  { db with whitelist := url :: db.whitelist.filter (fun u => u != url) }

/-- Modelled from the spec: db_manager.save_blacklist_entry — admit an
unsafe verdict for the URL into the blacklist cache store. -/
def save_blacklist_entry (db : ReputationDb) (url : String) : ReputationDb :=
  { db with blacklist := url :: db.blacklist.filter (fun u => u != url) }

/-- Outcome of analysis_service.analyze_url as recheck_url_action
distinguishes it: a result whose safe field is True, False or
anything else, or an exception (caught by the handler after the stale
entry was already removed). -/
inductive AnalyzeOutcome
  | ok (safe : Option Bool)
  | raised

/-- recheck_url_action: remove the URL from the stores, re-analyze
ignoring the database, then admit the fresh verdict into the matching
store; an indeterminate result or an exception leaves only the
removal. -/
def recheck_url_action (db : ReputationDb) (url : String)
    (a : AnalyzeOutcome) : ReputationDb :=
  let db1 := mark_url_as_safe db url
  match a with
  | .ok (some true) => save_whitelist_entry db1 url
  | .ok (some false) => save_blacklist_entry db1 url
  | .ok none => db1
  | .raised => db1

/-- C4: a URL in the blacklist that rechecks as safe ends up out of
the blacklist and in the whitelist; and recheck preserves the
invariant that no URL sits in the whitelist and the blacklist at the
same time, because the stale entry is removed before the fresh
verdict is admitted. -/
theorem recheck_url_clears_blacklist_and_keeps_disjoint
    (db : ReputationDb) (url : String) (a : AnalyzeOutcome)
    (hinv : ∀ u : String, ¬(u ∈ db.whitelist ∧ u ∈ db.blacklist)) :
    (url ∈ db.blacklist →
      url ∉ (recheck_url_action db url (AnalyzeOutcome.ok (some true))).blacklist
      ∧ url ∈ (recheck_url_action db url (AnalyzeOutcome.ok (some true))).whitelist)
    ∧ ∀ u : String, ¬(u ∈ (recheck_url_action db url a).whitelist
        ∧ u ∈ (recheck_url_action db url a).blacklist) := by
  constructor
  · intro _
    constructor
    · simp [recheck_url_action, save_whitelist_entry, mark_url_as_safe,
        List.mem_filter]
    · simp [recheck_url_action, save_whitelist_entry, mark_url_as_safe]
  · intro u hu
    obtain ⟨hw, hb⟩ := hu
    cases a with
    | raised =>
        simp only [recheck_url_action, mark_url_as_safe, List.mem_filter] at hw hb
        exact hinv u ⟨hw.1, hb.1⟩
    | ok s =>
        match s with
        | none =>
            simp only [recheck_url_action, mark_url_as_safe, List.mem_filter] at hw hb
            exact hinv u ⟨hw.1, hb.1⟩
        | some true =>
            simp only [recheck_url_action, save_whitelist_entry, mark_url_as_safe,
              List.mem_cons, List.mem_filter, bne_iff_ne] at hw hb
            rcases hw with rfl | hw
            · exact hb.2 rfl
            · exact hinv u ⟨hw.1.1, hb.1⟩
        | some false =>
            simp only [recheck_url_action, save_blacklist_entry, mark_url_as_safe,
              List.mem_cons, List.mem_filter, bne_iff_ne] at hw hb
            rcases hb with rfl | hb
            · exact hw.2 rfl
            · exact hinv u ⟨hw.1, hb.1.1⟩

/-- Witness for C4: a URL sitting alone in the blacklist rechecks as
safe and moves to the whitelist. -/
theorem recheck_url_clears_blacklist_and_keeps_disjoint_witness :
    "http://bad.example" ∉
      (recheck_url_action ⟨[], ["http://bad.example"], []⟩ "http://bad.example"
        (AnalyzeOutcome.ok (some true))).blacklist
    ∧ "http://bad.example" ∈
      (recheck_url_action ⟨[], ["http://bad.example"], []⟩ "http://bad.example"
        (AnalyzeOutcome.ok (some true))).whitelist :=
  (recheck_url_clears_blacklist_and_keeps_disjoint
    ⟨[], ["http://bad.example"], []⟩ "http://bad.example"
    (AnalyzeOutcome.ok (some true)) (by simp)).1 (by simp)

end AVQON
